import Mathlib

/-!
Shallow embedding of `src/backend/routers/announcements.py`: the five
announcement endpoints of the school-management API (list active, list all,
create, update, delete), backed by a document store holding an announcement
collection and a teacher collection.

Python strings are embedded as `String`, Python `None` as `Option.none`,
Python lexicographic string comparison as `pyLt` on character lists.
The document store is embedded as a list of announcement records plus the
list of teacher usernames; each handler is a pure function returning the
HTTP outcome, the resulting announcement collection and the ordered trace
of store accesses it performed.  An exception raised past the framework
(such as `bson.errors.InvalidId` escaping the handler) is embedded as the
`serverError` outcome, distinct from a deliberate `HTTPException`.
-/

namespace Announcements

/-- Python `<` on strings: lexicographic comparison of code points. -/
def pyLt : List Char → List Char → Bool
  | [], [] => false
  | [], _ :: _ => true
  | _ :: _, [] => false
  | a :: as, b :: bs =>
      if a < b then true
      else if b < a then false
      else pyLt as bs

/-- `s < t` for Python strings. -/
def strLt (s t : String) : Bool := pyLt s.data t.data

/-- `s > t` for Python strings (`t < s`). -/
def strGt (s t : String) : Bool := pyLt t.data s.data

/-- Truthiness of an optional string, as Python evaluates `if x:` on a value
that is either `None` or a `str`: `None` and `""` are falsy. -/
def truthy : Option String → Bool
  | none => false
  | some s => s != ""

/-- The date filter inlined in `get_active_announcements` (lines 41-50 of the
source): given `now` and the record's `start_date` / `expiration_date` as read
with `.get`, the record is skipped when `start_date` is truthy and
`now < start_date`, or when `expiration_date` is truthy and
`now > expiration_date`; otherwise it is kept. -/
def isActive (now : String) (start_date expiration_date : Option String) : Bool :=
  if truthy start_date && strLt now (start_date.getD "") then false
  else if truthy expiration_date && strGt now (expiration_date.getD "") then false
  else true

/-- Hex digit as accepted by `bson.ObjectId` (both cases). -/
def isHexChar (c : Char) : Bool :=
  c.isDigit || (('a' ≤ c) && (c ≤ 'f')) || (('A' ≤ c) && (c ≤ 'F'))

/-- Lowercase every character of a string (code-point wise). -/
def strToLower (s : String) : String := String.mk (s.data.map Char.toLower)

/-- A BSON object id, identified by its 24-character lowercase hex rendering. -/
structure ObjectId where
  hex : String
deriving DecidableEq, Repr

/-- `bson.ObjectId(s)`: accepts a 24-character hex string (case-insensitive,
normalised to lowercase); any other string raises `bson.errors.InvalidId`,
embedded as `none`. -/
def objectIdOfString (s : String) : Option ObjectId :=
  if s.length == 24 && s.data.all isHexChar then some ⟨strToLower s⟩ else none

/-- `str(oid)`: the hex rendering used when serialising `_id` fields. -/
def objectIdToString (o : ObjectId) : String := o.hex

/-- A stored announcement document.  Every document written by this module has
exactly these fields: `create_announcement` sets the first six (with
`start_date` possibly `None`) and `update_announcement` only ever `$set`s
`message`, `start_date`, `expiration_date`, `updated_at`, `updated_by`. -/
structure Announcement where
  oid : ObjectId
  message : String
  start_date : Option String
  expiration_date : String
  created_by : String
  created_at : String
  updated_by : Option String
  updated_at : Option String
deriving DecidableEq, Repr

/-- An outbound announcement record: the stored fields with `_id` rendered as
a string (`announcement["_id"] = str(announcement["_id"])`). -/
structure AnnouncementOut where
  oidStr : String
  message : String
  start_date : Option String
  expiration_date : String
  created_by : String
  created_at : String
  updated_by : Option String
  updated_at : Option String
deriving DecidableEq, Repr

/-- Serialise a stored document for a response. -/
def renderAnn (a : Announcement) : AnnouncementOut :=
  { oidStr := objectIdToString a.oid
    message := a.message
    start_date := a.start_date
    expiration_date := a.expiration_date
    created_by := a.created_by
    created_at := a.created_at
    updated_by := a.updated_by
    updated_at := a.updated_at }

/-- One access to the document store, in the order the handler performs it. -/
inductive StoreEvent where
  | teacherFindOne (username : String)
  | annFind
  | annInsertOne
  | annUpdateOne (oid : ObjectId)
  | annFindOne (oid : ObjectId)
  | annDeleteOne (oid : ObjectId)
deriving DecidableEq, Repr

/-- Whether a store access touches the announcement collection (rather than
the teacher collection). -/
def StoreEvent.touchesAnnouncements : StoreEvent → Bool
  | .teacherFindOne _ => false
  | _ => true

/-- How a request terminates: a normal response, a deliberate
`HTTPException(status_code, detail)`, or an exception escaping the handler,
which the framework reports as an internal server error. -/
inductive Outcome (α : Type) where
  | ok (resp : α)
  | httpError (status_code : Nat) (detail : String)
  | serverError (detail : String)
deriving DecidableEq, Repr

/-- Result of running one handler: its outcome, the announcement collection
afterwards, and the trace of store accesses in execution order. -/
structure HandlerResult (α : Type) where
  outcome : Outcome α
  store : List Announcement
  events : List StoreEvent
deriving DecidableEq, Repr

/-- Request body of the create endpoint (`AnnouncementCreate`):
`message` and `expiration_date` required, `start_date` optional. -/
structure AnnouncementCreate where
  message : String
  start_date : Option String := none
  expiration_date : String
deriving DecidableEq, Repr

/-- Request body of the update endpoint (`AnnouncementUpdate`) after pydantic
parsing: every field optional, defaulting to `None`. -/
structure AnnouncementUpdate where
  message : Option String := none
  start_date : Option String := none
  expiration_date : Option String := none
deriving DecidableEq, Repr

/-- A JSON field of the raw update body: missing from the object, explicit
`null`, or a string value. -/
inductive JsonField where
  | absent
  | null
  | str (s : String)
deriving DecidableEq, Repr

/-- Pydantic parsing of a `str | None = None` field: an absent field takes the
default `None`, and an explicit JSON `null` also parses to `None`. -/
def parseOptField : JsonField → Option String
  | .absent => none
  | .null => none
  | .str s => some s

/-- The raw JSON update body, field by field. -/
structure AnnouncementUpdateBody where
  message : JsonField := .absent
  start_date : JsonField := .absent
  expiration_date : JsonField := .absent
deriving DecidableEq, Repr

/-- Parse a raw update body into the pydantic model. -/
def parseAnnouncementUpdate (b : AnnouncementUpdateBody) : AnnouncementUpdate :=
  { message := parseOptField b.message
    start_date := parseOptField b.start_date
    expiration_date := parseOptField b.expiration_date }

/-- The `$set` document built by `update_announcement`: a field is present
(`some`) exactly when the handler put it into `update_doc`. -/
structure UpdateDoc where
  message : Option String := none
  start_date : Option String := none
  expiration_date : Option String := none
  updated_at : Option String := none
  updated_by : Option String := none
deriving DecidableEq, Repr

/-- Apply a `$set` document to a stored record: each field present in the
document overwrites the stored field, every other field is untouched. -/
def applySet (u : UpdateDoc) (a : Announcement) : Announcement :=
  { a with
    message := u.message.getD a.message
    start_date := match u.start_date with
      | some s => some s
      | none => a.start_date
    expiration_date := u.expiration_date.getD a.expiration_date
    updated_at := match u.updated_at with
      | some s => some s
      | none => a.updated_at
    updated_by := match u.updated_by with
      | some s => some s
      | none => a.updated_by }

/-- `update_one({"_id": oid}, {"$set": u}})` on the collection: updates the
first matching document, leaves the rest alone. -/
def updateFirst (oid : ObjectId) (u : UpdateDoc) : List Announcement → List Announcement
  | [] => []
  | a :: rest =>
      if a.oid = oid then applySet u a :: rest
      else a :: updateFirst oid u rest

/-- `delete_one({"_id": oid})` on the collection: removes the first matching
document, leaves the rest alone. -/
def deleteFirst (oid : ObjectId) : List Announcement → List Announcement
  | [] => []
  | a :: rest =>
      if a.oid = oid then rest
      else a :: deleteFirst oid rest

/-- `GET /announcements`: public.  Reads every document, keeps the ones in
their active date window at `now = datetime.now().isoformat()`, and returns
them with `_id` rendered as a string. -/
def get_active_announcements (now : String) (announcements : List Announcement) :
    HandlerResult (List AnnouncementOut) :=
  { outcome := .ok ((announcements.filter
        (fun a => isActive now a.start_date (some a.expiration_date))).map renderAnn)
    store := announcements
    events := [.annFind] }

/-- `GET /announcements/all`: looks up `username` in the teacher collection,
raises 401 if absent, otherwise returns every document. -/
def get_all_announcements (username : String) (teachers : List String)
    (announcements : List Announcement) : HandlerResult (List AnnouncementOut) :=
  if !(teachers.contains username) then
    { outcome := .httpError 401 "Unauthorized"
      store := announcements
      events := [.teacherFindOne username] }
  else
    { outcome := .ok (announcements.map renderAnn)
      store := announcements
      events := [.teacherFindOne username, .annFind] }

/-- `POST /announcements`: after the teacher check, builds the document
stamping `created_by = username` and `created_at = now`, inserts it (the store
assigns `freshId`), and returns it with the new `_id` as a string. -/
def create_announcement (body : AnnouncementCreate) (username : String)
    (now : String) (freshId : ObjectId) (teachers : List String)
    (announcements : List Announcement) : HandlerResult AnnouncementOut :=
  if !(teachers.contains username) then
    { outcome := .httpError 401 "Unauthorized"
      store := announcements
      events := [.teacherFindOne username] }
  else
    let announcement_doc : Announcement :=
      { oid := freshId
        message := body.message
        start_date := body.start_date
        expiration_date := body.expiration_date
        created_by := username
        created_at := now
        updated_by := none
        updated_at := none }
    { outcome := .ok (renderAnn announcement_doc)
      store := announcements ++ [announcement_doc]
      events := [.teacherFindOne username, .annInsertOne] }

/-- `PUT /announcements/{announcement_id}`: teacher check; build `update_doc`
from the fields of the body that are not `None`; 400 when it is empty; stamp
`updated_at = now` and `updated_by = username`; convert the path parameter
with `ObjectId(announcement_id)` (an invalid string raises `InvalidId`, which
nothing catches); `update_one`; 404 when nothing matched; re-fetch and return
the record (`None` if the re-fetch finds nothing). -/
def update_announcement (announcement_id : String) (body : AnnouncementUpdate)
    (username : String) (now : String) (teachers : List String)
    (announcements : List Announcement) : HandlerResult (Option AnnouncementOut) :=
  if !(teachers.contains username) then
    { outcome := .httpError 401 "Unauthorized"
      store := announcements
      events := [.teacherFindOne username] }
  else
    let update_doc : UpdateDoc :=
      { message := body.message
        start_date := body.start_date
        expiration_date := body.expiration_date }
    if body.message.isNone && body.start_date.isNone && body.expiration_date.isNone then
      { outcome := .httpError 400 "No fields to update"
        store := announcements
        events := [.teacherFindOne username] }
    else
      let update_doc2 : UpdateDoc :=
        { update_doc with updated_at := some now, updated_by := some username }
      match objectIdOfString announcement_id with
      | none =>
          { outcome := .serverError "bson.errors.InvalidId"
            store := announcements
            events := [.teacherFindOne username] }
      | some oid =>
          let matched := announcements.any (fun a => a.oid == oid)
          let newAnns := updateFirst oid update_doc2 announcements
          if !matched then
            { outcome := .httpError 404 "Announcement not found"
              store := newAnns
              events := [.teacherFindOne username, .annUpdateOne oid] }
          else
            match newAnns.find? (fun a => a.oid == oid) with
            | some updated =>
                { outcome := .ok (some (renderAnn updated))
                  store := newAnns
                  events := [.teacherFindOne username, .annUpdateOne oid, .annFindOne oid] }
            | none =>
                { outcome := .ok none
                  store := newAnns
                  events := [.teacherFindOne username, .annUpdateOne oid, .annFindOne oid] }

/-- `DELETE /announcements/{announcement_id}`: teacher check; convert the path
parameter with `ObjectId` (invalid strings raise uncaught `InvalidId`);
`delete_one`; 404 when nothing was deleted; otherwise a confirmation. -/
def delete_announcement (announcement_id : String) (username : String)
    (teachers : List String) (announcements : List Announcement) :
    HandlerResult String :=
  if !(teachers.contains username) then
    { outcome := .httpError 401 "Unauthorized"
      store := announcements
      events := [.teacherFindOne username] }
  else
    match objectIdOfString announcement_id with
    | none =>
        { outcome := .serverError "bson.errors.InvalidId"
          store := announcements
          events := [.teacherFindOne username] }
    | some oid =>
        let deleted := announcements.any (fun a => a.oid == oid)
        let newAnns := deleteFirst oid announcements
        if !deleted then
          { outcome := .httpError 404 "Announcement not found"
            store := newAnns
            events := [.teacherFindOne username, .annDeleteOne oid] }
        else
          { outcome := .ok "Announcement deleted successfully"
            store := newAnns
            events := [.teacherFindOne username, .annDeleteOne oid] }

/-! ## Helper lemmas -/

theorem pyLt_irrefl : ∀ l : List Char, pyLt l l = false := by
  intro l
  induction l with
  | nil => rfl
  | cons a as ih => simp [pyLt, lt_irrefl, ih]

theorem strLt_irrefl (s : String) : strLt s s = false := pyLt_irrefl s.data

theorem strGt_irrefl (s : String) : strGt s s = false := pyLt_irrefl s.data

/-! ## Claim theorems -/

/-- C1: for every announcement record and every instant `now`, the date filter
used by the list-active operation excludes the record iff `start_date` is set
and `now < start_date` by string comparison, or `expiration_date` is set and
`now > expiration_date` by string comparison; otherwise the record is
included.  The dates, being ISO-8601 strings when set, are nonempty. -/
theorem dateFilter_excluded_iff (now : String) (sd ed : Option String)
    (hs : ∀ s, sd = some s → s ≠ "") (he : ∀ s, ed = some s → s ≠ "") :
    isActive now sd ed = false ↔
      ((∃ s, sd = some s ∧ strLt now s = true) ∨
       (∃ s, ed = some s ∧ strGt now s = true)) := by
  cases sd with
  | none =>
      cases ed with
      | none => simp [isActive, truthy]
      | some e =>
          have he' : e ≠ "" := he e rfl
          by_cases hgt : strGt now e = true <;>
            simp [isActive, truthy, bne_iff_ne, he', hgt]
  | some s =>
      have hs' : s ≠ "" := hs s rfl
      cases ed with
      | none =>
          by_cases hlt : strLt now s = true <;>
            simp [isActive, truthy, bne_iff_ne, hs', hlt]
      | some e =>
          have he' : e ≠ "" := he e rfl
          by_cases hlt : strLt now s = true <;>
            by_cases hgt : strGt now e = true <;>
              simp [isActive, truthy, bne_iff_ne, hs', he', hlt, hgt]

/-- C1 witness: a record whose `start_date` lies after `now` is excluded. -/
theorem dateFilter_excluded_iff_witness :
    isActive "2024-06-01T00:00:00" (some "2025-01-01T00:00:00") none = false ↔
      ((∃ s, (some "2025-01-01T00:00:00" : Option String) = some s ∧
          strLt "2024-06-01T00:00:00" s = true) ∨
       (∃ s, (none : Option String) = some s ∧ strGt "2024-06-01T00:00:00" s = true)) :=
  dateFilter_excluded_iff "2024-06-01T00:00:00" (some "2025-01-01T00:00:00") none
    (by intro s h; cases h; decide) (by intro s h; cases h)

/-- C4 counterexample: at `now` exactly equal to `expiration_date`, the filter
does NOT exclude the announcement — `now > expiration_date` is false, so the
record is still active, contradicting the claim that it is excluded. -/
theorem expiration_instant_cex :
    ¬ (isActive "2024-06-01T00:00:00" none (some "2024-06-01T00:00:00") = false) := by
  decide

/-- C4 amended: at `now` exactly equal to `expiration_date`, the filter treats
the announcement as ACTIVE (the exclusion test is the strict `now >
expiration_date`), so it is included whenever its `start_date` does not also
exclude it. -/
theorem expiration_instant_active (now : String) (sd : Option String)
    (h : ¬ ∃ s, sd = some s ∧ s ≠ "" ∧ strLt now s = true) :
    isActive now sd (some now) = true := by
  have hirr : strGt now now = false := strGt_irrefl now
  cases sd with
  | none => simp [isActive, truthy, hirr]
  | some s =>
      push_neg at h
      have hns := h s rfl
      by_cases hs : s = ""
      · simp [isActive, truthy, hs, hirr]
      · have hlt : strLt now s = false := Bool.eq_false_iff.mpr (hns hs)
        simp [isActive, truthy, bne_iff_ne, hs, hlt, hirr]

/-- C4 amended, witness: a record expiring exactly at `now`, with an earlier
start date, is reported active. -/
theorem expiration_instant_active_witness :
    isActive "2024-06-01T00:00:00" (some "2020-01-01T00:00:00")
      (some "2024-06-01T00:00:00") = true :=
  expiration_instant_active "2024-06-01T00:00:00" (some "2020-01-01T00:00:00")
    (by
      rintro ⟨s, hsome, -, hlt⟩
      cases hsome
      revert hlt
      decide)

/-- C10: the filter tests truthiness, not presence, so an empty-string
`expiration_date` behaves exactly like an absent one: the record is never
excluded as expired, and is reported active at every instant not blocked by
its `start_date`. -/
theorem empty_expiration_never_expired (now : String) (sd : Option String) :
    isActive now sd (some "") = isActive now sd none ∧
    ((¬ ∃ s, sd = some s ∧ s ≠ "" ∧ strLt now s = true) →
      isActive now sd (some "") = true) := by
  constructor
  · simp [isActive, truthy]
  · intro h
    cases sd with
    | none => simp [isActive, truthy]
    | some s =>
        push_neg at h
        have hns := h s rfl
        by_cases hs : s = ""
        · simp [isActive, truthy, hs]
        · have hlt : strLt now s = false := Bool.eq_false_iff.mpr (hns hs)
          simp [isActive, truthy, bne_iff_ne, hs, hlt]

/-- C10 witness: a record with empty-string `expiration_date` and no
`start_date` is treated like one with no expiration and reported active. -/
theorem empty_expiration_never_expired_witness :
    isActive "2099-12-31T23:59:59" none (some "") = isActive "2099-12-31T23:59:59" none none ∧
    isActive "2099-12-31T23:59:59" none (some "") = true :=
  ⟨(empty_expiration_never_expired "2099-12-31T23:59:59" none).1,
   (empty_expiration_never_expired "2099-12-31T23:59:59" none).2
     (by rintro ⟨s, hsome, -, -⟩; cases hsome)⟩

/-- C3: the code evaluated at a malformed identifier.  With an authorized
username and an identifier string that `ObjectId` cannot convert, both update
and delete let `bson.errors.InvalidId` escape the handler — a server error —
rather than failing with a client error as the specification requires. -/
theorem malformed_id_server_error :
    (update_announcement "not-a-hex-id" { message := some "hi" } "alice"
        "2024-01-01T00:00:00" ["alice"] []).outcome
      = .serverError "bson.errors.InvalidId" ∧
    (delete_announcement "not-a-hex-id" "alice" ["alice"] []).outcome
      = .serverError "bson.errors.InvalidId" := by
  constructor <;> rfl

/-- C2: every protected operation (list all, create, update, delete) invoked
with a username not present in the teacher collection fails with 401
Unauthorized, its store-access trace is exactly the teacher lookup (so no
announcement-store read or write happens, before or after the check), and the
announcement collection is unchanged. -/
theorem unauthorized_before_store (username announcement_id now : String)
    (cbody : AnnouncementCreate) (ubody : AnnouncementUpdate) (freshId : ObjectId)
    (teachers : List String) (anns : List Announcement)
    (h : teachers.contains username = false) :
    ((get_all_announcements username teachers anns).outcome = .httpError 401 "Unauthorized" ∧
      (get_all_announcements username teachers anns).events = [.teacherFindOne username] ∧
      (get_all_announcements username teachers anns).store = anns) ∧
    ((create_announcement cbody username now freshId teachers anns).outcome
        = .httpError 401 "Unauthorized" ∧
      (create_announcement cbody username now freshId teachers anns).events
        = [.teacherFindOne username] ∧
      (create_announcement cbody username now freshId teachers anns).store = anns) ∧
    ((update_announcement announcement_id ubody username now teachers anns).outcome
        = .httpError 401 "Unauthorized" ∧
      (update_announcement announcement_id ubody username now teachers anns).events
        = [.teacherFindOne username] ∧
      (update_announcement announcement_id ubody username now teachers anns).store = anns) ∧
    ((delete_announcement announcement_id username teachers anns).outcome
        = .httpError 401 "Unauthorized" ∧
      (delete_announcement announcement_id username teachers anns).events
        = [.teacherFindOne username] ∧
      (delete_announcement announcement_id username teachers anns).store = anns) := by
  have h' : username ∉ teachers := by simpa using h
  simp [get_all_announcements, create_announcement, update_announcement,
    delete_announcement, h']

/-- C2 witness: the unknown user "mallory" is rejected by all four protected
operations against a teacher collection holding only "alice". -/
theorem unauthorized_before_store_witness :
    ((get_all_announcements "mallory" ["alice"] []).outcome
        = .httpError 401 "Unauthorized" ∧
      (get_all_announcements "mallory" ["alice"] []).events
        = [.teacherFindOne "mallory"] ∧
      (get_all_announcements "mallory" ["alice"] []).store = []) ∧
    ((create_announcement ⟨"m", none, "2099-01-01"⟩ "mallory" "2024-01-01"
        ⟨"0123456789abcdef01234567"⟩ ["alice"] []).outcome
        = .httpError 401 "Unauthorized" ∧
      (create_announcement ⟨"m", none, "2099-01-01"⟩ "mallory" "2024-01-01"
        ⟨"0123456789abcdef01234567"⟩ ["alice"] []).events
        = [.teacherFindOne "mallory"] ∧
      (create_announcement ⟨"m", none, "2099-01-01"⟩ "mallory" "2024-01-01"
        ⟨"0123456789abcdef01234567"⟩ ["alice"] []).store = []) ∧
    ((update_announcement "0123456789abcdef01234567" ⟨some "m", none, none⟩
        "mallory" "2024-01-01" ["alice"] []).outcome = .httpError 401 "Unauthorized" ∧
      (update_announcement "0123456789abcdef01234567" ⟨some "m", none, none⟩
        "mallory" "2024-01-01" ["alice"] []).events = [.teacherFindOne "mallory"] ∧
      (update_announcement "0123456789abcdef01234567" ⟨some "m", none, none⟩
        "mallory" "2024-01-01" ["alice"] []).store = []) ∧
    ((delete_announcement "0123456789abcdef01234567" "mallory" ["alice"] []).outcome
        = .httpError 401 "Unauthorized" ∧
      (delete_announcement "0123456789abcdef01234567" "mallory" ["alice"] []).events
        = [.teacherFindOne "mallory"] ∧
      (delete_announcement "0123456789abcdef01234567" "mallory" ["alice"] []).store = []) :=
  unauthorized_before_store "mallory" "0123456789abcdef01234567" "2024-01-01"
    ⟨"m", none, "2099-01-01"⟩ ⟨some "m", none, none⟩ ⟨"0123456789abcdef01234567"⟩
    ["alice"] [] (by decide)

/-- C5: an update whose body supplies none of `message`, `start_date`,
`expiration_date` fails with 400 "No fields to update": the store is
unchanged and the only store access is the teacher lookup. -/
theorem empty_update_rejected (announcement_id username now : String)
    (body : AnnouncementUpdate) (teachers : List String) (anns : List Announcement)
    (hauth : teachers.contains username = true)
    (hm : body.message = none) (hsd : body.start_date = none)
    (hed : body.expiration_date = none) :
    (update_announcement announcement_id body username now teachers anns).outcome
        = .httpError 400 "No fields to update" ∧
    (update_announcement announcement_id body username now teachers anns).store = anns ∧
    (update_announcement announcement_id body username now teachers anns).events
        = [.teacherFindOne username] := by
  have hauth' : username ∈ teachers := by simpa using hauth
  simp [update_announcement, hauth', hm, hsd, hed]

/-- C5 witness: teacher "alice" sends an all-empty update body. -/
theorem empty_update_rejected_witness :
    (update_announcement "0123456789abcdef01234567" ⟨none, none, none⟩
        "alice" "2024-01-01" ["alice"] []).outcome = .httpError 400 "No fields to update" ∧
    (update_announcement "0123456789abcdef01234567" ⟨none, none, none⟩
        "alice" "2024-01-01" ["alice"] []).store = [] ∧
    (update_announcement "0123456789abcdef01234567" ⟨none, none, none⟩
        "alice" "2024-01-01" ["alice"] []).events = [.teacherFindOne "alice"] :=
  empty_update_rejected "0123456789abcdef01234567" "alice" "2024-01-01"
    ⟨none, none, none⟩ ["alice"] [] (by decide) rfl rfl rfl

/-- C8: a create by an authorized username inserts one document and returns
it: `created_by` is the requesting username, `created_at` the current instant,
`message` / `start_date` / `expiration_date` are the supplied inputs, and the
newly assigned identifier is present, rendered as a string. -/
theorem create_returns_created_record (body : AnnouncementCreate) (username now : String)
    (freshId : ObjectId) (teachers : List String) (anns : List Announcement)
    (hauth : teachers.contains username = true) :
    ∃ doc : Announcement,
      (create_announcement body username now freshId teachers anns).outcome
          = .ok (renderAnn doc) ∧
      (create_announcement body username now freshId teachers anns).store
          = anns ++ [doc] ∧
      doc.created_by = username ∧ doc.created_at = now ∧
      doc.message = body.message ∧ doc.start_date = body.start_date ∧
      doc.expiration_date = body.expiration_date ∧
      doc.oid = freshId ∧ (renderAnn doc).oidStr = objectIdToString freshId := by
  refine ⟨{ oid := freshId, message := body.message, start_date := body.start_date,
            expiration_date := body.expiration_date, created_by := username,
            created_at := now, updated_by := none, updated_at := none },
          ?_, ?_, rfl, rfl, rfl, rfl, rfl, rfl, rfl⟩ <;>
  · have hauth' : username ∈ teachers := by simpa using hauth
    simp [create_announcement, hauth']

/-- C8 witness: teacher "alice" creates an announcement. -/
theorem create_returns_created_record_witness :
    ∃ doc : Announcement,
      (create_announcement ⟨"Exam Friday", none, "2099-01-01T00:00:00"⟩ "alice"
          "2024-01-01T00:00:00" ⟨"0123456789abcdef01234567"⟩ ["alice"] []).outcome
          = .ok (renderAnn doc) ∧
      (create_announcement ⟨"Exam Friday", none, "2099-01-01T00:00:00"⟩ "alice"
          "2024-01-01T00:00:00" ⟨"0123456789abcdef01234567"⟩ ["alice"] []).store
          = [] ++ [doc] ∧
      doc.created_by = "alice" ∧ doc.created_at = "2024-01-01T00:00:00" ∧
      doc.message = "Exam Friday" ∧ doc.start_date = none ∧
      doc.expiration_date = "2099-01-01T00:00:00" ∧
      doc.oid = ⟨"0123456789abcdef01234567"⟩ ∧
      (renderAnn doc).oidStr = objectIdToString ⟨"0123456789abcdef01234567"⟩ :=
  create_returns_created_record ⟨"Exam Friday", none, "2099-01-01T00:00:00"⟩ "alice"
    "2024-01-01T00:00:00" ⟨"0123456789abcdef01234567"⟩ ["alice"] [] (by decide)

/-- C9: an update body giving `message`, `start_date` and `expiration_date`
all explicitly as JSON `null` parses to exactly the same pydantic model as an
entirely absent body, so the handler behaves identically: for an authorized
username it fails with 400 "No fields to update" and writes nothing. -/
theorem null_update_like_empty (announcement_id username now : String)
    (teachers : List String) (anns : List Announcement)
    (hauth : teachers.contains username = true) :
    parseAnnouncementUpdate ⟨.null, .null, .null⟩
        = parseAnnouncementUpdate ⟨.absent, .absent, .absent⟩ ∧
    update_announcement announcement_id (parseAnnouncementUpdate ⟨.null, .null, .null⟩)
        username now teachers anns
      = update_announcement announcement_id
          (parseAnnouncementUpdate ⟨.absent, .absent, .absent⟩) username now teachers anns ∧
    (update_announcement announcement_id (parseAnnouncementUpdate ⟨.null, .null, .null⟩)
        username now teachers anns).outcome = .httpError 400 "No fields to update" ∧
    (update_announcement announcement_id (parseAnnouncementUpdate ⟨.null, .null, .null⟩)
        username now teachers anns).store = anns := by
  refine ⟨rfl, rfl, ?_, ?_⟩ <;>
  · have hauth' : username ∈ teachers := by simpa using hauth
    simp [update_announcement, hauth', parseAnnouncementUpdate, parseOptField]

/-- C9 witness: teacher "alice" sends `{"message": null, "start_date": null,
"expiration_date": null}`. -/
theorem null_update_like_empty_witness :
    parseAnnouncementUpdate ⟨.null, .null, .null⟩
        = parseAnnouncementUpdate ⟨.absent, .absent, .absent⟩ ∧
    update_announcement "0123456789abcdef01234567"
        (parseAnnouncementUpdate ⟨.null, .null, .null⟩) "alice" "2024-01-01" ["alice"] []
      = update_announcement "0123456789abcdef01234567"
          (parseAnnouncementUpdate ⟨.absent, .absent, .absent⟩) "alice" "2024-01-01"
          ["alice"] [] ∧
    (update_announcement "0123456789abcdef01234567"
        (parseAnnouncementUpdate ⟨.null, .null, .null⟩) "alice" "2024-01-01"
        ["alice"] []).outcome = .httpError 400 "No fields to update" ∧
    (update_announcement "0123456789abcdef01234567"
        (parseAnnouncementUpdate ⟨.null, .null, .null⟩) "alice" "2024-01-01"
        ["alice"] []).store = [] :=
  null_update_like_empty "0123456789abcdef01234567" "alice" "2024-01-01"
    ["alice"] [] (by decide)

theorem applySet_oid (u : UpdateDoc) (a : Announcement) : (applySet u a).oid = a.oid := rfl

theorem find?_updateFirst (oid : ObjectId) (u : UpdateDoc) (l : List Announcement)
    (old : Announcement) (h : l.find? (fun a => a.oid == oid) = some old) :
    (updateFirst oid u l).find? (fun a => a.oid == oid) = some (applySet u old) := by
  induction l with
  | nil => simp at h
  | cons a rest ih =>
      by_cases hb : a.oid = oid
      · have hp : (a.oid == oid) = true := beq_iff_eq.mpr hb
        rw [List.find?_cons_of_pos (p := fun x : Announcement => x.oid == oid) _ hp] at h
        injection h with h
        subst h
        have h1 : updateFirst oid u (a :: rest) = applySet u a :: rest := by
          simp [updateFirst, hb]
        have hp2 : ((applySet u a).oid == oid) = true := by
          rw [applySet_oid]; exact hp
        rw [h1, List.find?_cons_of_pos (p := fun x : Announcement => x.oid == oid) _ hp2]
      · have hp : ¬ ((a.oid == oid) = true) := by simp [hb]
        rw [List.find?_cons_of_neg (p := fun x : Announcement => x.oid == oid) _ hp] at h
        have h1 : updateFirst oid u (a :: rest) = a :: updateFirst oid u rest := by
          simp [updateFirst, hb]
        rw [h1, List.find?_cons_of_neg (p := fun x : Announcement => x.oid == oid) _ hp]
        exact ih h

theorem mem_updateFirst_of_ne (oid : ObjectId) (u : UpdateDoc) (l : List Announcement)
    (x : Announcement) (hx : x ∈ l) (hne : x.oid ≠ oid) :
    x ∈ updateFirst oid u l := by
  induction l with
  | nil => cases hx
  | cons a rest ih =>
      by_cases hb : a.oid = oid
      · have h1 : updateFirst oid u (a :: rest) = applySet u a :: rest := by
          simp [updateFirst, hb]
        rw [h1]
        rcases List.mem_cons.mp hx with h2 | h2
        · exact absurd (by rw [h2]; exact hb) hne
        · exact List.mem_cons_of_mem _ h2
      · have h1 : updateFirst oid u (a :: rest) = a :: updateFirst oid u rest := by
          simp [updateFirst, hb]
        rw [h1]
        rcases List.mem_cons.mp hx with h2 | h2
        · rw [h2]; exact List.mem_cons_self _ _
        · exact List.mem_cons_of_mem _ (ih h2)

theorem updateFirst_no_match (oid : ObjectId) (u : UpdateDoc) (l : List Announcement)
    (h : ∀ x ∈ l, x.oid ≠ oid) : updateFirst oid u l = l := by
  induction l with
  | nil => rfl
  | cons a rest ih =>
      have ha : a.oid ≠ oid := h a (List.mem_cons_self _ _)
      simp only [updateFirst, if_neg ha]
      rw [ih (fun x hx => h x (List.mem_cons_of_mem _ hx))]

theorem deleteFirst_no_match (oid : ObjectId) (l : List Announcement)
    (h : ∀ x ∈ l, x.oid ≠ oid) : deleteFirst oid l = l := by
  induction l with
  | nil => rfl
  | cons a rest ih =>
      have ha : a.oid ≠ oid := h a (List.mem_cons_self _ _)
      simp only [deleteFirst, if_neg ha]
      rw [ih (fun x hx => h x (List.mem_cons_of_mem _ hx))]

theorem deleteFirst_eq_filter (oid : ObjectId) (l : List Announcement)
    (hnodup : (l.map (fun a => a.oid)).Nodup) :
    deleteFirst oid l = l.filter (fun a => !(a.oid == oid)) := by
  induction l with
  | nil => rfl
  | cons a rest ih =>
      rw [List.map_cons, List.nodup_cons] at hnodup
      obtain ⟨hnotin, hrest⟩ := hnodup
      by_cases hb : a.oid = oid
      · have h1 : deleteFirst oid (a :: rest) = rest := by
          simp [deleteFirst, hb]
        have h2 : ∀ x ∈ rest, (!(x.oid == oid)) = true := by
          intro x hx
          have hxo : x.oid ≠ a.oid := by
            intro he
            exact hnotin (he ▸ List.mem_map_of_mem _ hx)
          rw [hb] at hxo
          simp [hxo]
        have h3 : (!(a.oid == oid)) = false := by simp [hb]
        rw [h1, List.filter_cons, h3]
        simp only [Bool.false_eq_true, if_false]
        exact (List.filter_eq_self.mpr h2).symm
      · have h1 : deleteFirst oid (a :: rest) = a :: deleteFirst oid rest := by
          simp [deleteFirst, hb]
        have h3 : (!(a.oid == oid)) = true := by simp [hb]
        rw [h1, List.filter_cons, h3, ih hrest]
        simp

/-- C6: a successful update modifies only the explicitly supplied fields of
the stored record: each of `message`, `start_date`, `expiration_date` is
replaced when supplied and untouched when absent, `created_by`/`created_at`
are never changed, `updated_by`/`updated_at` are stamped with the requesting
username and the current instant, and every other record is untouched.  The
response is the re-fetched stored record. -/
theorem update_modifies_only_supplied_fields
    (announcement_id username now : String) (body : AnnouncementUpdate)
    (teachers : List String) (anns : List Announcement)
    (old : Announcement) (oid : ObjectId)
    (hauth : teachers.contains username = true)
    (hne : (body.message.isNone && (body.start_date.isNone && body.expiration_date.isNone))
        = false)
    (hoid : objectIdOfString announcement_id = some oid)
    (hfind : anns.find? (fun a => a.oid == oid) = some old) :
    ∃ newRec : Announcement,
      (update_announcement announcement_id body username now teachers anns).outcome
          = .ok (some (renderAnn newRec)) ∧
      (update_announcement announcement_id body username now teachers anns).store.find?
          (fun a => a.oid == oid) = some newRec ∧
      (body.message = none → newRec.message = old.message) ∧
      (∀ s, body.message = some s → newRec.message = s) ∧
      (body.start_date = none → newRec.start_date = old.start_date) ∧
      (∀ s, body.start_date = some s → newRec.start_date = some s) ∧
      (body.expiration_date = none → newRec.expiration_date = old.expiration_date) ∧
      (∀ s, body.expiration_date = some s → newRec.expiration_date = s) ∧
      newRec.created_by = old.created_by ∧
      newRec.created_at = old.created_at ∧
      newRec.updated_by = some username ∧
      newRec.updated_at = some now ∧
      newRec.oid = old.oid ∧
      (∀ a ∈ anns, a.oid ≠ oid →
        a ∈ (update_announcement announcement_id body username now teachers anns).store) := by
  have hauth' : username ∈ teachers := by simpa using hauth
  have hmem := List.mem_of_find?_eq_some hfind
  have hpred : (old.oid == oid) = true := by
    have h0 := List.find?_some hfind
    simpa using h0
  have hmatched : anns.any (fun a => a.oid == oid) = true :=
    List.any_eq_true.mpr ⟨old, hmem, hpred⟩
  have hfind2 := find?_updateFirst oid
    { message := body.message, start_date := body.start_date,
      expiration_date := body.expiration_date,
      updated_at := some now, updated_by := some username } anns old hfind
  have hres : update_announcement announcement_id body username now teachers anns
      = { outcome := .ok (some (renderAnn (applySet
            { message := body.message, start_date := body.start_date,
              expiration_date := body.expiration_date,
              updated_at := some now, updated_by := some username } old)))
          store := updateFirst oid
            { message := body.message, start_date := body.start_date,
              expiration_date := body.expiration_date,
              updated_at := some now, updated_by := some username } anns
          events := [.teacherFindOne username, .annUpdateOne oid, .annFindOne oid] } := by
    simp [update_announcement, hauth', hoid, hmatched, hfind2]
    intro h1 h2 h3
    rw [h1, h2, h3] at hne
    simp at hne
  refine ⟨applySet
      { message := body.message, start_date := body.start_date,
        expiration_date := body.expiration_date,
        updated_at := some now, updated_by := some username } old,
    by rw [hres], by rw [hres]; exact hfind2,
    ?_, ?_, ?_, ?_, ?_, ?_, rfl, rfl, rfl, rfl, rfl, ?_⟩
  · intro h; simp [applySet, h]
  · intro s h; simp [applySet, h]
  · intro h; simp [applySet, h]
  · intro s h; simp [applySet, h]
  · intro h; simp [applySet, h]
  · intro s h; simp [applySet, h]
  · intro a ha hne2
    rw [hres]
    exact mem_updateFirst_of_ne oid _ anns a ha hne2

/-- C6 witness: teacher "alice" updates only the message of a stored record
created by "bob"; dates and creation stamps survive, the audit stamps are
set. -/
theorem update_modifies_only_supplied_fields_witness :
    ∃ newRec : Announcement,
      (update_announcement "0123456789abcdef01234567" ⟨some "New", none, none⟩ "alice"
          "2024-06-01T00:00:00" ["alice"]
          [⟨⟨"0123456789abcdef01234567"⟩, "Old", some "2024-01-01", "2099-01-01",
            "bob", "2023-12-31", none, none⟩]).outcome = .ok (some (renderAnn newRec)) ∧
      (update_announcement "0123456789abcdef01234567" ⟨some "New", none, none⟩ "alice"
          "2024-06-01T00:00:00" ["alice"]
          [⟨⟨"0123456789abcdef01234567"⟩, "Old", some "2024-01-01", "2099-01-01",
            "bob", "2023-12-31", none, none⟩]).store.find?
          (fun a => a.oid == ⟨"0123456789abcdef01234567"⟩) = some newRec ∧
      ((some "New" : Option String) = none → newRec.message = "Old") ∧
      (∀ s, (some "New" : Option String) = some s → newRec.message = s) ∧
      ((none : Option String) = none → newRec.start_date = some "2024-01-01") ∧
      (∀ s, (none : Option String) = some s → newRec.start_date = some s) ∧
      ((none : Option String) = none → newRec.expiration_date = "2099-01-01") ∧
      (∀ s, (none : Option String) = some s → newRec.expiration_date = s) ∧
      newRec.created_by = "bob" ∧
      newRec.created_at = "2023-12-31" ∧
      newRec.updated_by = some "alice" ∧
      newRec.updated_at = some "2024-06-01T00:00:00" ∧
      newRec.oid = ⟨"0123456789abcdef01234567"⟩ ∧
      (∀ a ∈ [(⟨⟨"0123456789abcdef01234567"⟩, "Old", some "2024-01-01", "2099-01-01",
            "bob", "2023-12-31", none, none⟩ : Announcement)],
        a.oid ≠ ⟨"0123456789abcdef01234567"⟩ →
        a ∈ (update_announcement "0123456789abcdef01234567" ⟨some "New", none, none⟩
              "alice" "2024-06-01T00:00:00" ["alice"]
              [⟨⟨"0123456789abcdef01234567"⟩, "Old", some "2024-01-01", "2099-01-01",
                "bob", "2023-12-31", none, none⟩]).store) :=
  update_modifies_only_supplied_fields "0123456789abcdef01234567" "alice"
    "2024-06-01T00:00:00" ⟨some "New", none, none⟩ ["alice"]
    [⟨⟨"0123456789abcdef01234567"⟩, "Old", some "2024-01-01", "2099-01-01",
      "bob", "2023-12-31", none, none⟩]
    ⟨⟨"0123456789abcdef01234567"⟩, "Old", some "2024-01-01", "2099-01-01",
      "bob", "2023-12-31", none, none⟩
    ⟨"0123456789abcdef01234567"⟩ (by decide) rfl (by decide) (by decide)

/-- C7: with an authorized username and a well-formed identifier, update and
delete succeed iff some record matches the identifier; when none matches both
fail with 404 "Announcement not found" and leave the store unchanged, and when
one matches (identifiers being unique in the store), delete removes exactly
the matching record. -/
theorem update_delete_not_found
    (announcement_id username now : String) (body : AnnouncementUpdate)
    (teachers : List String) (anns : List Announcement) (oid : ObjectId)
    (hauth : teachers.contains username = true)
    (hne : (body.message.isNone && (body.start_date.isNone && body.expiration_date.isNone))
        = false)
    (hoid : objectIdOfString announcement_id = some oid)
    (hnodup : (anns.map (fun a => a.oid)).Nodup) :
    ((∃ out, (update_announcement announcement_id body username now teachers anns).outcome
        = .ok out) ↔ anns.any (fun a => a.oid == oid) = true) ∧
    ((delete_announcement announcement_id username teachers anns).outcome
        = .ok "Announcement deleted successfully"
      ↔ anns.any (fun a => a.oid == oid) = true) ∧
    (anns.any (fun a => a.oid == oid) = false →
      (update_announcement announcement_id body username now teachers anns).outcome
          = .httpError 404 "Announcement not found" ∧
      (delete_announcement announcement_id username teachers anns).outcome
          = .httpError 404 "Announcement not found" ∧
      (update_announcement announcement_id body username now teachers anns).store = anns ∧
      (delete_announcement announcement_id username teachers anns).store = anns) ∧
    (anns.any (fun a => a.oid == oid) = true →
      (delete_announcement announcement_id username teachers anns).store
          = anns.filter (fun a => !(a.oid == oid))) := by
  have hauth' : username ∈ teachers := by simpa using hauth
  cases hany : anns.any (fun a => a.oid == oid) with
  | false =>
      have hall : ∀ x ∈ anns, x.oid ≠ oid := by
        have hall' : ∀ x ∈ anns, (x.oid == oid) = false := by
          simpa [List.any_eq_false] using hany
        intro x hx
        simpa using hall' x hx
      have hupd : updateFirst oid
          { message := body.message, start_date := body.start_date,
            expiration_date := body.expiration_date,
            updated_at := some now, updated_by := some username } anns = anns :=
        updateFirst_no_match _ _ _ hall
      have hdel : deleteFirst oid anns = anns := deleteFirst_no_match _ _ hall
      have hres_u : update_announcement announcement_id body username now teachers anns
          = { outcome := .httpError 404 "Announcement not found"
              store := anns
              events := [.teacherFindOne username, .annUpdateOne oid] } := by
        simp [update_announcement, hauth', hoid, hany, hupd]
        intro h1 h2 h3
        rw [h1, h2, h3] at hne
        simp at hne
      have hres_d : delete_announcement announcement_id username teachers anns
          = { outcome := .httpError 404 "Announcement not found"
              store := anns
              events := [.teacherFindOne username, .annDeleteOne oid] } := by
        simp [delete_announcement, hauth', hoid, hany, hdel]
      refine ⟨?_, ?_, ?_, ?_⟩
      · rw [hres_u]; simp
      · rw [hres_d]; simp
      · intro _
        rw [hres_u, hres_d]
        exact ⟨rfl, rfl, rfl, rfl⟩
      · intro hc
        exact Bool.noConfusion hc
  | true =>
      obtain ⟨w, hw, hpw⟩ := List.any_eq_true.mp hany
      have hsome : (anns.find? (fun a => a.oid == oid)).isSome := by
        rw [List.find?_isSome]
        exact ⟨w, hw, hpw⟩
      obtain ⟨v, hv⟩ := Option.isSome_iff_exists.mp hsome
      have hfind2 := find?_updateFirst oid
        { message := body.message, start_date := body.start_date,
          expiration_date := body.expiration_date,
          updated_at := some now, updated_by := some username } anns v hv
      have hres_u : update_announcement announcement_id body username now teachers anns
          = { outcome := .ok (some (renderAnn (applySet
                { message := body.message, start_date := body.start_date,
                  expiration_date := body.expiration_date,
                  updated_at := some now, updated_by := some username } v)))
              store := updateFirst oid
                { message := body.message, start_date := body.start_date,
                  expiration_date := body.expiration_date,
                  updated_at := some now, updated_by := some username } anns
              events := [.teacherFindOne username, .annUpdateOne oid, .annFindOne oid] } := by
        simp [update_announcement, hauth', hoid, hany, hfind2]
        intro h1 h2 h3
        rw [h1, h2, h3] at hne
        simp at hne
      have hres_d : delete_announcement announcement_id username teachers anns
          = { outcome := .ok "Announcement deleted successfully"
              store := deleteFirst oid anns
              events := [.teacherFindOne username, .annDeleteOne oid] } := by
        simp [delete_announcement, hauth', hoid, hany]
      refine ⟨?_, ?_, ?_, ?_⟩
      · rw [hres_u]; simp
      · rw [hres_d]; simp
      · intro hc
        exact Bool.noConfusion hc
      · intro _
        rw [hres_d]
        exact deleteFirst_eq_filter oid anns hnodup

/-- C7 witness: against an empty store, teacher "alice" gets 404 from both
update and delete with a well-formed identifier, and neither succeeds. -/
theorem update_delete_not_found_witness :
    ((∃ out, (update_announcement "0123456789abcdef01234567" ⟨some "x", none, none⟩
        "alice" "2024-01-01" ["alice"] []).outcome = .ok out)
      ↔ ([] : List Announcement).any
          (fun a => a.oid == (⟨"0123456789abcdef01234567"⟩ : ObjectId)) = true) ∧
    ((delete_announcement "0123456789abcdef01234567" "alice" ["alice"] []).outcome
        = .ok "Announcement deleted successfully"
      ↔ ([] : List Announcement).any
          (fun a => a.oid == (⟨"0123456789abcdef01234567"⟩ : ObjectId)) = true) ∧
    (([] : List Announcement).any
        (fun a => a.oid == (⟨"0123456789abcdef01234567"⟩ : ObjectId)) = false →
      (update_announcement "0123456789abcdef01234567" ⟨some "x", none, none⟩
          "alice" "2024-01-01" ["alice"] []).outcome
          = .httpError 404 "Announcement not found" ∧
      (delete_announcement "0123456789abcdef01234567" "alice" ["alice"] []).outcome
          = .httpError 404 "Announcement not found" ∧
      (update_announcement "0123456789abcdef01234567" ⟨some "x", none, none⟩
          "alice" "2024-01-01" ["alice"] []).store = [] ∧
      (delete_announcement "0123456789abcdef01234567" "alice" ["alice"] []).store = []) ∧
    (([] : List Announcement).any
        (fun a => a.oid == (⟨"0123456789abcdef01234567"⟩ : ObjectId)) = true →
      (delete_announcement "0123456789abcdef01234567" "alice" ["alice"] []).store
          = ([] : List Announcement).filter (fun a => !(a.oid == ⟨"0123456789abcdef01234567"⟩))) :=
  update_delete_not_found "0123456789abcdef01234567" "alice" "2024-01-01"
    ⟨some "x", none, none⟩ ["alice"] [] ⟨"0123456789abcdef01234567"⟩
    (by decide) rfl (by decide) (by decide)

end Announcements
